import Mathlib

/-!
Verification of the gasless cross-chain settlement bridge.

The repository ships the canister interface as generated candid
declarations (service.did.d.ts and the generated idlFactory) together
with a React frontend whose state store (useCanisterStore.ts) carries a
hand-written binding of the same canister.  The Rust canister
implementation itself is not part of the source tree, so the settlement
engine, quote engine and reserve manager are modelled from the
specification where noted; the candid declarations and the frontend
store are embedded directly from the source.
-/

/-! ## Candid interface embedding

A small universe of candid types, sufficient for every type that occurs
in the declared service.  Named record and variant definitions live in
an environment, and `ref` points into it, mirroring how the generated
idlFactory introduces named constants and uses them in the service
table. -/

inductive CandidType where
  | nat64
  | nat32
  | text
  | bool
  | float64
  | principal
  | null
  | opt (t : CandidType)
  | vec (t : CandidType)
  | record (fields : List (String × CandidType))
  | variant (alts : List (String × CandidType))
  | ref (name : String)

abbrev CandidEnv := List (String × CandidType)

/-- Structural equality of candid types up to field order and up to
resolution of named references, each side resolved in its own
environment.  Record and variant fields are compared as label-indexed
sets.  The fuel bounds the resolution depth. -/
def tyEq : Nat → CandidEnv → CandidEnv → CandidType → CandidType → Bool
  | 0, _, _, _, _ => false
  | fuel + 1, ea, eb, ta, tb =>
    match ta, tb with
    | .nat64, .nat64 => true
    | .nat32, .nat32 => true
    | .text, .text => true
    | .bool, .bool => true
    | .float64, .float64 => true
    | .principal, .principal => true
    | .null, .null => true
    | .opt a, .opt b => tyEq fuel ea eb a b
    | .vec a, .vec b => tyEq fuel ea eb a b
    | .record fa, .record fb =>
      (fa.length == fb.length)
        && fa.all (fun p =>
             match List.lookup p.1 fb with
             | some t2 => tyEq fuel ea eb p.2 t2
             | none => false)
        && fb.all (fun p =>
             match List.lookup p.1 fa with
             | some t1 => tyEq fuel ea eb t1 p.2
             | none => false)
    | .variant fa, .variant fb =>
      (fa.length == fb.length)
        && fa.all (fun p =>
             match List.lookup p.1 fb with
             | some t2 => tyEq fuel ea eb p.2 t2
             | none => false)
        && fb.all (fun p =>
             match List.lookup p.1 fa with
             | some t1 => tyEq fuel ea eb t1 p.2
             | none => false)
    | .ref na, tb2 =>
      match List.lookup na ea with
      | some da => tyEq fuel ea eb da tb2
      | none => false
    | ta2, .ref nb =>
      match List.lookup nb eb with
      | some db => tyEq fuel ea eb ta2 db
      | none => false
    | _, _ => false

def argsEqList (fuel : Nat) (ea eb : CandidEnv) (xs ys : List CandidType) : Bool :=
  (xs.length == ys.length)
    && (List.zip xs ys).all (fun p => tyEq fuel ea eb p.1 p.2)

/-- One method of a candid service: its name, argument types and single
result type. -/
structure MethodSig where
  name : String
  args : List CandidType
  ret : CandidType

def findMethod (svc : List MethodSig) (n : String) : Option MethodSig :=
  svc.find? (fun m => m.name == n)

def hasMethod (svc : List MethodSig) (n : String) : Bool :=
  (findMethod svc n).isSome

def methodRetIsText (svc : List MethodSig) (n : String) : Bool :=
  match findMethod svc n with
  | some m =>
    match m.ret with
    | .text => true
    | _ => false
  | none => false

/-- The method named `n` is declared with exactly the given argument
list and result type (compared up to reference resolution in `env`). -/
def methodSigIs (svc : List MethodSig) (env : CandidEnv) (n : String)
    (args : List CandidType) (ret : CandidType) : Bool :=
  match findMethod svc n with
  | some m => argsEqList 20 env env args m.args && tyEq 20 env env ret m.ret
  | none => false

/-- A method `m` of a client binding (types resolved in `ea`) exists in
the service `svcB` (types resolved in `eb`) with the same argument and
result types. -/
def bindingMatches (fuel : Nat) (ea eb : CandidEnv) (svcB : List MethodSig)
    (m : MethodSig) : Bool :=
  match findMethod svcB m.name with
  | some mb => argsEqList fuel ea eb m.args mb.args && tyEq fuel ea eb m.ret mb.ret
  | none => false

/-- Labels of the named variant `n` of environment `env`. -/
def variantLabels (env : CandidEnv) (n : String) : List String :=
  match List.lookup n env with
  | some (.variant alts) => alts.map Prod.fst
  | _ => []

/-! ## The canister service, transcribed from the generated idlFactory
(src/unnamed/part_005, in agreement with
src/.dfx/local/canisters/gasless-bridge/service.did.d.ts).

`candidServiceEnv` holds the named type definitions that are reachable
from the methods the frontend binds; `candidService` lists every method
of the declared service with its signature. -/

def candidServiceEnv : CandidEnv :=
  [ ("SettlementStatus", .variant
      [ ("Failed", .null), ("Executing", .null), ("Completed", .null), ("Pending", .null) ])
  , ("Settlement", .record
      [ ("id", .text)
      , ("destination_address", .text)
      , ("last_error", .opt .text)
      , ("status", .ref "SettlementStatus")
      , ("user_principal", .principal)
      , ("transaction_hash", .opt .text)
      , ("destination_chain", .text)
      , ("retry_count", .nat32)
      , ("created_at", .nat64)
      , ("payment_proof", .text)
      , ("quote_id", .text)
      , ("gas_used", .opt .nat64)
      , ("amount", .nat64) ])
  , ("TransactionStatus", .variant
      [ ("Failed", .null), ("Refunded", .null), ("Processing", .null)
      , ("Completed", .null), ("Pending", .null) ])
  , ("UserTransaction", .record
      [ ("id", .text)
      , ("destination_address", .text)
      , ("status", .ref "TransactionStatus")
      , ("user_principal", .principal)
      , ("transaction_hash", .opt .text)
      , ("destination_chain", .text)
      , ("icp_payment_id", .text)
      , ("created_at", .nat64)
      , ("amount_eth", .nat64)
      , ("amount_icp", .nat64)
      , ("gas_sponsored", .nat64)
      , ("completed_at", .opt .nat64) ])
  , ("DetailedReserveStatus", .record
      [ ("utilization_percent", .float64)
      , ("threshold_warning", .nat64)
      , ("balance", .nat64)
      , ("daily_volume", .nat64)
      , ("pending_withdrawals", .nat64)
      , ("locked", .nat64)
      , ("can_accept_quotes", .bool)
      , ("available", .nat64)
      , ("health_status", .text)
      , ("last_topup", .nat64)
      , ("threshold_critical", .nat64)
      , ("daily_limit", .nat64) ])
  , ("QuoteStatus", .variant
      [ ("Active", .null), ("Expired", .null), ("Settled", .null) ])
  , ("Quote", .record
      [ ("id", .text)
      , ("destination_address", .text)
      , ("source_chain", .text)
      , ("status", .ref "QuoteStatus")
      , ("base_fee", .nat64)
      , ("user_principal", .principal)
      , ("destination_chain", .text)
      , ("safety_margin", .nat64)
      , ("amount_requested", .nat64)
      , ("priority_fee", .nat64)
      , ("gas_estimate", .nat64)
      , ("total_cost", .nat64)
      , ("created_at", .nat64)
      , ("max_fee_per_gas", .nat64)
      , ("amount_out", .nat64)
      , ("amount_in", .nat64)
      , ("expires_at", .nat64) ])
  , ("SponsorshipStatus", .record
      [ ("can_sponsor", .bool)
      , ("reserve_health", .text)
      , ("gas_coverage", .text)
      , ("estimated_cost_eth", .nat64)
      , ("estimated_cost_icp", .nat64) ]) ]

def okErrText : CandidType := .variant [ ("Ok", .text), ("Err", .text) ]

def candidService : List MethodSig :=
  [ ⟨"add_admin", [.principal], okErrText⟩
  , ⟨"add_reserve_funds", [.nat64], okErrText⟩
  , ⟨"add_test_reserve_funds", [], .text⟩
  , ⟨"admin_add_reserve_funds", [.nat64], okErrText⟩
  , ⟨"admin_emergency_pause", [], okErrText⟩
  , ⟨"admin_emergency_unpause", [], okErrText⟩
  , ⟨"admin_set_daily_limit", [.nat64], okErrText⟩
  , ⟨"admin_set_reserve_thresholds", [.nat64, .nat64], okErrText⟩
  , ⟨"bridge_assets", [.nat64, .text, .text],
      .variant [ ("Ok", .ref "Settlement"), ("Err", .text) ]⟩
  , ⟨"calculate_icp_cost_for_eth", [.nat64],
      .variant [ ("Ok", .nat64), ("Err", .text) ]⟩
  , ⟨"can_accept_new_quotes", [], .bool⟩
  , ⟨"check_quote_expiry", [.text], okErrText⟩
  , ⟨"check_reserve_health", [], .text⟩
  , ⟨"clear_rpc_cache", [], .text⟩
  , ⟨"complete_cketh_burn_operation", [.text], okErrText⟩
  , ⟨"complete_cketh_mint_operation", [.text], okErrText⟩
  , ⟨"create_cketh_burn_operation", [.nat64, .text],
      .variant [ ("Ok", .ref "ChainKeyBurnOperation"), ("Err", .text) ]⟩
  , ⟨"create_cketh_mint_operation", [.nat64, .text],
      .variant [ ("Ok", .ref "ChainKeyMintOperation"), ("Err", .text) ]⟩
  , ⟨"create_icp_payment", [.nat64, .text, .text],
      .variant [ ("Ok", .ref "UserTransaction"), ("Err", .text) ]⟩
  , ⟨"estimate_quote_cost", [.nat64], okErrText⟩
  , ⟨"estimate_reserve_runway", [], .text⟩
  , ⟨"get_admin_status", [], .vec .principal⟩
  , ⟨"get_audit_logs", [.nat32], .vec (.ref "AuditLogEntry")⟩
  , ⟨"get_best_eth_price", [],
      .variant [ ("Ok", .ref "PriceData"), ("Err", .text) ]⟩
  , ⟨"get_best_icp_price", [],
      .variant [ ("Ok", .ref "PriceData"), ("Err", .text) ]⟩
  , ⟨"get_bridge_ethereum_address", [], okErrText⟩
  , ⟨"get_bridge_statistics", [], .ref "BridgeStatistics"⟩
  , ⟨"get_bridge_status", [], okErrText⟩
  , ⟨"get_chain_key_service_status", [], .text⟩
  , ⟨"get_cketh_burn_operation", [.text],
      .variant [ ("Ok", .ref "ChainKeyBurnOperation"), ("Err", .text) ]⟩
  , ⟨"get_cketh_mint_operation", [.text],
      .variant [ ("Ok", .ref "ChainKeyMintOperation"), ("Err", .text) ]⟩
  , ⟨"get_config", [], .ref "BridgeConfig"⟩
  , ⟨"get_conversion_rate", [],
      .variant [ ("Ok", .float64), ("Err", .text) ]⟩
  , ⟨"get_detailed_reserve_status", [], .ref "DetailedReserveStatus"⟩
  , ⟨"get_eth_price_usd", [],
      .variant [ ("Ok", .float64), ("Err", .text) ]⟩
  , ⟨"get_icp_price_usd", [],
      .variant [ ("Ok", .float64), ("Err", .text) ]⟩
  , ⟨"get_price_feed_status", [],
      .variant [ ("Ok", .ref "PriceFeedStatus"), ("Err", .text) ]⟩
  , ⟨"get_professional_reserve_status", [], .ref "ReserveState"⟩
  , ⟨"get_quote", [.text], .opt (.ref "Quote")⟩
  , ⟨"get_reserve_status", [], .ref "ReserveStatus"⟩
  , ⟨"get_reserve_status_formatted", [], .text⟩
  , ⟨"get_reserve_utilization", [], .float64⟩
  , ⟨"get_rpc_cache_stats", [], .text⟩
  , ⟨"get_settlement", [.text], .opt (.ref "Settlement")⟩
  , ⟨"get_settlement_by_quote", [.text], .opt (.ref "Settlement")⟩
  , ⟨"get_settlement_statistics", [], .text⟩
  , ⟨"get_sponsorship_status", [.nat64, .text],
      .variant [ ("Ok", .ref "SponsorshipStatus"), ("Err", .text) ]⟩
  , ⟨"get_supported_chain_key_tokens", [], .text⟩
  , ⟨"get_user_cketh_operations", [],
      .record [ ("mint_operations", .vec (.ref "ChainKeyMintOperation"))
              , ("burn_operations", .vec (.ref "ChainKeyBurnOperation")) ]⟩
  , ⟨"get_user_icp_balance", [],
      .variant [ ("Ok", .nat64), ("Err", .text) ]⟩
  , ⟨"get_user_quotes", [], .vec (.ref "Quote")⟩
  , ⟨"get_user_settlements", [], .vec (.ref "Settlement")⟩
  , ⟨"get_user_transaction", [.text], .opt (.ref "UserTransaction")⟩
  , ⟨"get_user_transactions", [], .vec (.ref "UserTransaction")⟩
  , ⟨"health_check", [], .text⟩
  , ⟨"invalidate_gas_cache", [], .text⟩
  , ⟨"request_quote", [.nat64, .text, .text],
      .variant [ ("Ok", .ref "Quote"), ("Err", .text) ]⟩
  , ⟨"run_chain_key_token_tests", [], .text⟩
  , ⟨"run_comprehensive_test_suite", [], .text⟩
  , ⟨"run_edge_case_tests", [], .text⟩
  , ⟨"run_integration_tests", [], .text⟩
  , ⟨"run_performance_tests", [], .text⟩
  , ⟨"run_security_tests", [], .text⟩
  , ⟨"run_unit_tests", [], .text⟩
  , ⟨"settle_quote", [.text, .text],
      .variant [ ("Ok", .ref "Settlement"), ("Err", .text) ]⟩
  , ⟨"test_base_rpc", [], .text⟩
  , ⟨"test_complete_bridge_flow", [], okErrText⟩
  , ⟨"test_complete_gasless_settlement", [], okErrText⟩
  , ⟨"test_enhanced_rpc_client", [], okErrText⟩
  , ⟨"test_gasless_bridge_demo", [], okErrText⟩
  , ⟨"test_rpc_health_monitoring", [], okErrText⟩
  , ⟨"test_settlement_flow", [], okErrText⟩
  , ⟨"test_threshold_ecdsa_integration", [], okErrText⟩
  , ⟨"test_transaction_building", [], okErrText⟩
  , ⟨"update_config", [.ref "BridgeConfig"], okErrText⟩ ]

/-! ## The frontend binding, transcribed from the hand-written
idlFactory in src/frontend/src/hooks/useCanisterStore.ts. -/

def storeIdlEnv : CandidEnv :=
  [ ("QuoteStatus", .variant
      [ ("Active", .null), ("Settled", .null), ("Expired", .null), ("Failed", .null) ])
  , ("Quote", .record
      [ ("id", .text)
      , ("user_principal", .principal)
      , ("amount_in", .nat64)
      , ("amount_out", .nat64)
      , ("amount_requested", .nat64)
      , ("total_cost", .nat64)
      , ("gas_estimate", .nat64)
      , ("destination_address", .text)
      , ("source_chain", .text)
      , ("destination_chain", .text)
      , ("created_at", .nat64)
      , ("expires_at", .nat64)
      , ("base_fee", .nat64)
      , ("priority_fee", .nat64)
      , ("max_fee_per_gas", .nat64)
      , ("safety_margin", .nat64)
      , ("status", .ref "QuoteStatus") ])
  , ("SettlementStatus", .variant
      [ ("Pending", .null), ("Executing", .null), ("Completed", .null), ("Failed", .null) ])
  , ("Settlement", .record
      [ ("id", .text)
      , ("quote_id", .text)
      , ("user_principal", .principal)
      , ("amount", .nat64)
      , ("destination_address", .text)
      , ("destination_chain", .text)
      , ("payment_proof", .text)
      , ("created_at", .nat64)
      , ("status", .ref "SettlementStatus")
      , ("gas_used", .opt .nat64)
      , ("transaction_hash", .opt .text)
      , ("retry_count", .nat32)
      , ("last_error", .opt .text) ])
  , ("ReserveStatus", .record
      [ ("balance", .nat64)
      , ("locked", .nat64)
      , ("available", .nat64)
      , ("threshold_warning", .nat64)
      , ("threshold_critical", .nat64)
      , ("daily_volume", .nat64)
      , ("daily_limit", .nat64)
      , ("pending_withdrawals", .nat64)
      , ("utilization_percent", .float64)
      , ("health_status", .text)
      , ("can_accept_quotes", .bool)
      , ("last_topup", .nat64) ])
  , ("Result", .variant [ ("Ok", .text), ("Err", .text) ])
  , ("Result_1", .variant [ ("Ok", .ref "Quote"), ("Err", .text) ])
  , ("Result_2", .variant [ ("Ok", .ref "Settlement"), ("Err", .text) ])
  , ("SponsorshipStatus", .record
      [ ("can_sponsor", .bool)
      , ("estimated_cost_icp", .nat64)
      , ("estimated_cost_eth", .nat64)
      , ("gas_coverage", .text)
      , ("reserve_health", .text) ])
  , ("TransactionStatus", .variant
      [ ("Pending", .null), ("Processing", .null), ("Completed", .null)
      , ("Failed", .null), ("Refunded", .null) ])
  , ("UserTransaction", .record
      [ ("id", .text)
      , ("user_principal", .principal)
      , ("amount_icp", .nat64)
      , ("amount_eth", .nat64)
      , ("destination_address", .text)
      , ("destination_chain", .text)
      , ("status", .ref "TransactionStatus")
      , ("created_at", .nat64)
      , ("completed_at", .opt .nat64)
      , ("transaction_hash", .opt .text)
      , ("gas_sponsored", .nat64)
      , ("icp_payment_id", .text) ])
  , ("Result_4", .variant [ ("Ok", .ref "UserTransaction"), ("Err", .text) ])
  , ("Result_5", .variant [ ("Ok", .ref "SponsorshipStatus"), ("Err", .text) ]) ]

def storeIdlService : List MethodSig :=
  [ ⟨"request_quote", [.nat64, .text, .text], .ref "Result_1"⟩
  , ⟨"bridge_assets", [.nat64, .text, .text], .ref "Result_2"⟩
  , ⟨"settle_quote", [.text, .text], .ref "Result_2"⟩
  , ⟨"get_quote_by_id", [.text], .ref "Result_1"⟩
  , ⟨"get_settlement_by_id", [.text], .ref "Result_2"⟩
  , ⟨"get_detailed_reserve_status", [], .ref "ReserveStatus"⟩
  , ⟨"get_rpc_cache_stats", [], .ref "Result"⟩
  , ⟨"clear_rpc_cache", [], .ref "Result"⟩
  , ⟨"invalidate_gas_cache", [], .ref "Result"⟩
  , ⟨"run_comprehensive_test_suite", [], .ref "Result"⟩
  , ⟨"create_icp_payment", [.nat64, .text, .text], .ref "Result_4"⟩
  , ⟨"get_sponsorship_status", [.nat64, .text], .ref "Result_5"⟩
  , ⟨"get_user_transactions", [], .vec (.ref "UserTransaction")⟩
  , ⟨"get_user_transaction", [.text], .opt (.ref "UserTransaction")⟩ ]

/-- The frontend binding of method `n` agrees, in argument and result
types, with the declaration of the same method in the canister service,
resolving the frontend side in `ea`. -/
def frontendMethodAgreesIn (ea : CandidEnv) (n : String) : Bool :=
  match findMethod storeIdlService n with
  | some m => bindingMatches 20 ea candidServiceEnv candidService m
  | none => false

def frontendMethodAgrees (n : String) : Bool :=
  frontendMethodAgreesIn storeIdlEnv n

/-- The frontend environment with its QuoteStatus re-bound to the
three-alternative variant the canister declares. -/
def storeIdlEnvQuoteStatusPatched : CandidEnv :=
  ("QuoteStatus", .variant [ ("Active", .null), ("Expired", .null), ("Settled", .null) ])
    :: storeIdlEnv

/-! ## Quote engine model

The Rust quote engine is not part of the source tree.  Its data model
follows the candid Quote record; the pricing and validity rules are
modelled from the spec (sections 4.3 and 4.5): the quote charges, in
source-token units, the ETH value of amount plus gas budget converted
at the ETH/ICP USD price ratio, scaled by the safety margin and rounded
up, and it expires one configured validity window after creation. -/

inductive QuoteStatus where
  | Active
  | Expired
  | Settled
deriving DecidableEq

structure Quote where
  id : String
  user_principal : String
  amount_in : Nat
  amount_out : Nat
  amount_requested : Nat
  total_cost : Nat
  gas_estimate : Nat
  destination_address : String
  source_chain : String
  destination_chain : String
  created_at : Nat
  expires_at : Nat
  base_fee : Nat
  priority_fee : Nat
  max_fee_per_gas : Nat
  safety_margin : Nat
  status : QuoteStatus
deriving DecidableEq

structure BridgeConfig where
  max_quote_amount : Nat
  min_quote_amount : Nat
  quote_validity_minutes : Nat
  max_gas_price : Nat
  safety_margin_percent : Nat
  supported_chains : List String
deriving DecidableEq

/-- Modelled from the spec: default configuration of the bridge; the
spec fixes `quote_validity_minutes` to 15 and `safety_margin_percent`
to 20, with Base Sepolia as the supported destination chain. -/
def defaultBridgeConfig : BridgeConfig :=
  { max_quote_amount := 10000000000000000000
  , min_quote_amount := 1000000000000000
  , quote_validity_minutes := 15
  , max_gas_price := 100000000000
  , safety_margin_percent := 20
  , supported_chains := ["Base Sepolia"] }

/-- Ceiling division on naturals, used for the rounded-up cost. -/
def ceilDiv (a b : Nat) : Nat := (a + b - 1) / b

/-- Modelled from the spec (section 4.5 step 2):
gas budget of a quote is max fee per gas times estimated gas. -/
def gasBudgetOf (maxFeePerGas gasEstimate : Nat) : Nat :=
  maxFeePerGas * gasEstimate

/-- Modelled from the spec (section 4.5 step 2): the total cost in
source-token units is the amount plus gas budget, converted through the
ETH and ICP USD prices (given in a common fixed-point USD unit) and
scaled by (1 + margin/100), rounded up, in exact integer arithmetic. -/
def totalCostSource (amountOut gasBudget ethUsd icpUsd marginPercent : Nat) : Nat :=
  ceilDiv ((amountOut + gasBudget) * ethUsd * (100 + marginPercent)) (icpUsd * 100)

def isHexChar (c : Char) : Bool :=
  ("0123456789abcdefABCDEF".data.contains c)

/-- Modelled from the spec (section 4.5 step 1): a destination address
is a 0x-prefixed 20-byte hex string, checksum-tolerant. -/
def isValidEthAddress (addr : String) : Bool :=
  match addr.data with
  | '0' :: 'x' :: rest => (rest.length == 40) && rest.all isHexChar
  | _ => false

/-- Modelled from the spec (sections 4.3 and 4.5): the quote built for
a validated request.  The max fee per gas is 2 x base fee headroom plus
the priority fee; the expiry is the configured validity window after
creation. -/
def buildQuote (cfg : BridgeConfig) (now : Nat) (user : String) (amountOut : Nat)
    (destAddr destChain : String) (ethUsd icpUsd : Nat)
    (gasEstimate baseFee priorityFee : Nat) : Quote :=
  let maxFee := 2 * baseFee + priorityFee
  let budget := gasBudgetOf maxFee gasEstimate
  let cost := totalCostSource amountOut budget ethUsd icpUsd cfg.safety_margin_percent
  { id := "quote-" ++ toString now
  , user_principal := user
  , amount_in := cost
  , amount_out := amountOut
  , amount_requested := amountOut
  , total_cost := cost
  , gas_estimate := gasEstimate
  , destination_address := destAddr
  , source_chain := "ICP"
  , destination_chain := destChain
  , created_at := now
  , expires_at := now + cfg.quote_validity_minutes * 60
  , base_fee := baseFee
  , priority_fee := priorityFee
  , max_fee_per_gas := maxFee
  , safety_margin := budget * cfg.safety_margin_percent / 100
  , status := QuoteStatus.Active }

/-- Modelled from the spec (section 4.5): request_quote validates the
address, chain and amount range, requires fresh nonzero prices, and
returns the priced quote; failures are classified error strings. -/
def requestQuote (cfg : BridgeConfig) (now : Nat) (user : String) (amountOut : Nat)
    (destAddr destChain : String) (ethUsd icpUsd : Nat)
    (gasEstimate baseFee priorityFee : Nat) : Except String Quote :=
  if !(isValidEthAddress destAddr) then
    .error "ValidationError: invalid destination address"
  else if !(cfg.supported_chains.contains destChain) then
    .error "ValidationError: unsupported destination chain"
  else if amountOut < cfg.min_quote_amount || cfg.max_quote_amount < amountOut then
    .error "ValidationError: amount out of range"
  else if ethUsd == 0 || icpUsd == 0 then
    .error "PriceError: price unavailable"
  else
    .ok (buildQuote cfg now user amountOut destAddr destChain ethUsd icpUsd
          gasEstimate baseFee priorityFee)

/-- Denotation of the candid Ok-or-Err result used by request_quote,
bridge_assets and settle_quote. -/
inductive ApiResult (α : Type) where
  | ok (v : α)
  | err (msg : String)

/-! ## Settlement engine model

Modelled from the spec (sections 4.6, 4.9 and 9): settlement creation
is keyed by payment proof; a proof already seen returns the existing
Settlement unchanged; a quote that already has a non-Failed Settlement
rejects a second settlement as AlreadySettled; otherwise a fresh
Pending settlement is stored.  Status transitions follow the settlement
state machine (Pending to Executing, Executing to Completed or Failed,
Pending to Failed), and both bridge_assets and settle_quote drive this
same path. -/

inductive SettlementStatus where
  | Pending
  | Executing
  | Completed
  | Failed
deriving DecidableEq

structure Settlement where
  id : String
  quote_id : String
  user_principal : String
  amount : Nat
  destination_address : String
  destination_chain : String
  payment_proof : String
  created_at : Nat
  status : SettlementStatus
  gas_used : Option Nat
  transaction_hash : Option String
  retry_count : Nat
  last_error : Option String
deriving DecidableEq

structure SettlementStore where
  settlements : List Settlement
  nextId : Nat
deriving DecidableEq

def mkSettlementId (n : Nat) : String := "settlement-" ++ toString n

inductive QuoteError where
  | AlreadySettled
deriving DecidableEq

/-- Modelled from the spec: the settlement-creation step shared by
bridge_assets and settle_quote.  Duplicate payment proofs return the
stored Settlement; a second settlement for a quote that already has a
non-Failed one is rejected as AlreadySettled. -/
def settleQuoteModel (st : SettlementStore) (quoteId paymentProof user : String)
    (amount now : Nat) (destAddr destChain : String) :
    SettlementStore × Except QuoteError Settlement :=
  match st.settlements.find? (fun s => s.payment_proof == paymentProof) with
  | some s => (st, .ok s)
  | none =>
    if st.settlements.any
        (fun s => s.quote_id == quoteId && s.status != SettlementStatus.Failed) then
      (st, .error QuoteError.AlreadySettled)
    else
      let s : Settlement :=
        { id := mkSettlementId st.nextId
        , quote_id := quoteId
        , user_principal := user
        , amount := amount
        , destination_address := destAddr
        , destination_chain := destChain
        , payment_proof := paymentProof
        , created_at := now
        , status := SettlementStatus.Pending
        , gas_used := none
        , transaction_hash := none
        , retry_count := 0
        , last_error := none }
      ({ settlements := st.settlements ++ [s], nextId := st.nextId + 1 }, .ok s)

/-- Modelled from the spec (section 4.9): the legal settlement status
transitions.  No transition leaves Failed or Completed. -/
def statusStep : SettlementStatus → SettlementStatus → Bool
  | .Pending, .Executing => true
  | .Executing, .Completed => true
  | .Executing, .Failed => true
  | .Pending, .Failed => true
  | _, _ => false

/-- Advance the settlement with the given id to a new status, when the
state machine allows it. -/
def advanceSettlement (st : SettlementStore) (sid : String)
    (newStatus : SettlementStatus) : SettlementStore :=
  { st with settlements := st.settlements.map (fun s =>
      if s.id == sid && statusStep s.status newStatus then { s with status := newStatus } else s) }

/-- Lookup of the settlement recorded for a quote, as exposed by
get_settlement_by_quote. -/
def getSettlementByQuote (st : SettlementStore) (quoteId : String) : Option Settlement :=
  st.settlements.find? (fun s => s.quote_id == quoteId)

def initSettlementStore : SettlementStore := { settlements := [], nextId := 0 }

/-- Stores reachable from the empty store by settlement creations and
status transitions. -/
inductive SettlementReachable : SettlementStore → Prop where
  | init : SettlementReachable initSettlementStore
  | settle (st : SettlementStore) (quoteId paymentProof user : String)
      (amount now : Nat) (destAddr destChain : String) :
      SettlementReachable st →
      SettlementReachable (settleQuoteModel st quoteId paymentProof user amount now destAddr destChain).1
  | advance (st : SettlementStore) (sid : String) (newStatus : SettlementStatus) :
      SettlementReachable st →
      SettlementReachable (advanceSettlement st sid newStatus)

/-- No two stored settlements share a payment proof. -/
def proofsUnique (st : SettlementStore) : Prop :=
  st.settlements.Pairwise (fun a b => a.payment_proof ≠ b.payment_proof)

/-- Any two stored settlements of the same quote cannot both be
non-Failed. -/
def quoteUniqueNonFailed (st : SettlementStore) : Prop :=
  st.settlements.Pairwise (fun a b => a.quote_id = b.quote_id →
    a.status = SettlementStatus.Failed ∨ b.status = SettlementStatus.Failed)

/-! ## Reserve manager model

Modelled from the spec (section 4.4): a single reserve record mutated
by lock, unlock, commit, topup and the admin operations, each applied
atomically.  A failed guard leaves the state unchanged. -/

structure ReserveState where
  balance : Nat
  locked : Nat
  threshold_warning : Nat
  threshold_critical : Nat
  daily_limit : Nat
  daily_used : Nat
  paused : Bool
  last_topup : Nat
deriving DecidableEq

def availableReserve (r : ReserveState) : Nat := r.balance - r.locked

inductive ReserveOp where
  | lock (amount : Nat)
  | unlock (amount : Nat)
  | commit (amount : Nat)
  | topup (amount : Nat)
  | setThresholds (warning critical : Nat)
  | setDailyLimit (limit : Nat)
  | pause
  | unpause
deriving DecidableEq

/-- Modelled from the spec (section 4.4): effect of one reserve
mutation.  lock requires available funds, an unpaused reserve and the
daily limit; unlock is idempotent at zero; commit moves a completed
settlement amount out of balance and locked and into daily usage. -/
def reserveStep (r : ReserveState) : ReserveOp → ReserveState
  | .lock a =>
    if a ≤ availableReserve r ∧ r.paused = false ∧ r.daily_used + a ≤ r.daily_limit then
      { r with locked := r.locked + a }
    else r
  | .unlock a => { r with locked := r.locked - a }
  | .commit a =>
    { r with balance := r.balance - a, locked := r.locked - a
           , daily_used := r.daily_used + a }
  | .topup a => { r with balance := r.balance + a }
  | .setThresholds w c => { r with threshold_warning := w, threshold_critical := c }
  | .setDailyLimit l => { r with daily_limit := l }
  | .pause => { r with paused := true }
  | .unpause => { r with paused := false }

def initReserve : ReserveState :=
  { balance := 0, locked := 0, threshold_warning := 0, threshold_critical := 0
  , daily_limit := 0, daily_used := 0, paused := false, last_topup := 0 }

inductive ReserveReachable : ReserveState → Prop where
  | init : ReserveReachable initReserve
  | step (r : ReserveState) (op : ReserveOp) :
      ReserveReachable r → ReserveReachable (reserveStep r op)

/-! ## Frontend store model

Embedded from src/frontend/src/hooks/useCanisterStore.ts.  Each store
action is modelled as a pure function from the current store state and
the outcome of the underlying actor call (Ok result, Err result, or a
thrown exception rendered as its message) to the next store state and
the value the action returns.  The transient isLoading=true set before
the call resolves is elided: the model records the net state after the
action finishes. -/

inductive TransactionStatus where
  | Pending
  | Processing
  | Completed
  | Failed
  | Refunded
deriving DecidableEq

structure UserTransaction where
  id : String
  user_principal : String
  amount_icp : Nat
  amount_eth : Nat
  destination_address : String
  destination_chain : String
  status : TransactionStatus
  created_at : Nat
  completed_at : Option Nat
  transaction_hash : Option String
  gas_sponsored : Nat
  icp_payment_id : String
deriving DecidableEq

structure StoreState where
  hasActor : Bool
  isConnected : Bool
  isLoading : Bool
  error : Option String
  retryCount : Nat
  quotes : List Quote
  settlements : List Settlement
  userTransactions : List UserTransaction
deriving DecidableEq

def initialStoreState : StoreState :=
  { hasActor := false, isConnected := false, isLoading := false, error := none
  , retryCount := 0, quotes := [], settlements := [], userTransactions := [] }

/-- Outcome of an awaited actor call as seen by a store action. -/
inductive CallResult (α : Type) where
  | ok (v : α)
  | err (msg : String)
  | thrown (msg : String)

/-- The requestQuote store action (useCanisterStore.ts lines 380-406). -/
def requestQuoteAction (st : StoreState) (res : CallResult Quote) :
    StoreState × Option Quote :=
  if st.hasActor = false then
    ({ st with error := some "Not connected to canister" }, none)
  else
    match res with
    | .ok q =>
      ({ st with isLoading := false, error := none, quotes := st.quotes ++ [q] }, some q)
    | .err e => ({ st with isLoading := false, error := some e }, none)
    | .thrown m =>
      ({ st with isLoading := false
               , error := some ("Failed to request quote: " ++ m) }, none)

/-- The bridgeAssets store action (useCanisterStore.ts lines 409-435). -/
def bridgeAssetsAction (st : StoreState) (res : CallResult Settlement) :
    StoreState × Option Settlement :=
  if st.hasActor = false then
    ({ st with error := some "Not connected to canister" }, none)
  else
    match res with
    | .ok s =>
      ({ st with isLoading := false, error := none
               , settlements := st.settlements ++ [s] }, some s)
    | .err e => ({ st with isLoading := false, error := some e }, none)
    | .thrown m =>
      ({ st with isLoading := false
               , error := some ("Failed to bridge assets: " ++ m) }, none)

/-- The settleQuote store action (useCanisterStore.ts lines 438-464). -/
def settleQuoteAction (st : StoreState) (res : CallResult Settlement) :
    StoreState × Option Settlement :=
  if st.hasActor = false then
    ({ st with error := some "Not connected to canister" }, none)
  else
    match res with
    | .ok s =>
      ({ st with isLoading := false, error := none
               , settlements := st.settlements ++ [s] }, some s)
    | .err e => ({ st with isLoading := false, error := some e }, none)
    | .thrown m =>
      ({ st with isLoading := false
               , error := some ("Failed to settle quote: " ++ m) }, none)

/-- The createIcpPayment store action (useCanisterStore.ts lines 573-599). -/
def createIcpPaymentAction (st : StoreState) (res : CallResult UserTransaction) :
    StoreState × Option UserTransaction :=
  if st.hasActor = false then
    ({ st with error := some "Not connected to canister" }, none)
  else
    match res with
    | .ok t =>
      ({ st with isLoading := false, error := none
               , userTransactions := st.userTransactions ++ [t] }, some t)
    | .err e => ({ st with isLoading := false, error := some e }, none)
    | .thrown m =>
      ({ st with isLoading := false
               , error := some ("Failed to create automatic ICP payment: " ++ m) }, none)

/-- The three cached collections of the store are unchanged between two
states. -/
def collectionsUnchanged (st st2 : StoreState) : Prop :=
  st2.quotes = st.quotes ∧ st2.settlements = st.settlements
    ∧ st2.userTransactions = st.userTransactions

/-- A store action outcome that returns null, records the given error
message and leaves every cached collection unchanged. -/
def failsWith {α : Type} (st : StoreState) (out : StoreState × Option α)
    (msg : String) : Prop :=
  out.2 = none ∧ out.1.error = some msg ∧ collectionsUnchanged st out.1

/-- The initializeCanister action (useCanisterStore.ts lines 296-363),
with the outcome of the connection attempt as a parameter: on success
the actor is stored and the error cleared; on failure the error message
is recorded and retryCount incremented. -/
def initCanisterModel (st : StoreState) (success : Bool) (errMsg : String) : StoreState :=
  if success then
    { st with isLoading := false, error := none, isConnected := true, hasActor := true }
  else
    { st with isLoading := false, error := some errMsg, isConnected := false
            , retryCount := st.retryCount + 1 }

def maxRetryMsg : String :=
  "Maximum retry attempts reached. Please check your connection and try again."

/-- The retryConnection action (useCanisterStore.ts lines 366-377).
Returns the next state and whether a connection attempt was made. -/
def retryConnectionModel (st : StoreState) (success : Bool) (errMsg : String) :
    StoreState × Bool :=
  if st.retryCount < 3 then
    (initCanisterModel st success errMsg, true)
  else
    ({ st with error := some maxRetryMsg, isLoading := false }, false)

/-- Run a sequence of retryConnection calls, each with the outcome its
connection attempt would have.  Returns the final state, the number of
connection attempts made, and how many of those attempts failed. -/
def retryRun : StoreState → List (Bool × String) → StoreState × Nat × Nat
  | st, [] => (st, 0, 0)
  | st, o :: rest =>
    let r := retryConnectionModel st o.1 o.2
    let rec2 := retryRun r.1 rest
    (rec2.1, (if r.2 then 1 else 0) + rec2.2.1,
      (if r.2 && !o.1 then 1 else 0) + rec2.2.2)

deriving instance DecidableEq for Except

/-! ## Helper lemmas -/

theorem ceilDiv_mul_ge (x b : Nat) (hb : 0 < b) : x ≤ ceilDiv x b * b := by
  have h2 := Nat.div_add_mod (x + b - 1) b
  have h1 : (x + b - 1) % b < b := Nat.mod_lt _ hb
  unfold ceilDiv
  rw [Nat.mul_comm]
  generalize hq : b * ((x + b - 1) / b) = t at h2 ⊢
  generalize hm : (x + b - 1) % b = m at h2 h1
  omega

theorem totalCostSource_scaled (a gb e s m : Nat) (hs : 0 < s) :
    (a + gb) * e ≤ totalCostSource a gb e s m * s := by
  have hD : 0 < s * 100 := by positivity
  have h1 : (a + gb) * e * (100 + m) ≤ totalCostSource a gb e s m * (s * 100) :=
    ceilDiv_mul_ge _ _ hD
  have h2 : (a + gb) * e * 100 ≤ (a + gb) * e * (100 + m) :=
    Nat.mul_le_mul (Nat.le_refl _) (by omega)
  have h3 : (a + gb) * e * 100 ≤ totalCostSource a gb e s m * s * 100 := by
    calc (a + gb) * e * 100 ≤ totalCostSource a gb e s m * (s * 100) := le_trans h2 h1
    _ = totalCostSource a gb e s m * s * 100 := by ring
  exact Nat.le_of_mul_le_mul_right h3 (by norm_num)

theorem requestQuote_ok_eq {cfg : BridgeConfig} {now : Nat} {user : String}
    {amountOut : Nat} {destAddr destChain : String} {ethUsd icpUsd : Nat}
    {gasEstimate baseFee priorityFee : Nat} {q : Quote}
    (h : requestQuote cfg now user amountOut destAddr destChain ethUsd icpUsd
          gasEstimate baseFee priorityFee = .ok q) :
    q = buildQuote cfg now user amountOut destAddr destChain ethUsd icpUsd
          gasEstimate baseFee priorityFee ∧ icpUsd ≠ 0 := by
  unfold requestQuote at h
  split at h
  · exact absurd h (by simp)
  · split at h
    · exact absurd h (by simp)
    · split at h
      · exact absurd h (by simp)
      · split at h
        · exact absurd h (by simp)
        · rename_i h4
          refine ⟨(Except.ok.inj h).symm, ?_⟩
          intro hs0
          apply h4
          simp [hs0]

theorem reserve_locked_le_balance {r : ReserveState} (h : ReserveReachable r) :
    r.locked ≤ r.balance := by
  induction h with
  | init => exact Nat.le_refl _
  | step r op h ih =>
    cases op with
    | lock a =>
      simp only [reserveStep]
      split
      · rename_i hg
        obtain ⟨hg1, -, -⟩ := hg
        unfold availableReserve at hg1
        dsimp only
        omega
      · exact ih
    | unlock a => simp only [reserveStep]; omega
    | commit a => simp only [reserveStep]; omega
    | topup a => simp only [reserveStep]; omega
    | setThresholds w c => exact ih
    | setDailyLimit l => exact ih
    | pause => exact ih
    | unpause => exact ih

theorem statusStep_failed (ns : SettlementStatus) :
    statusStep SettlementStatus.Failed ns = false := by
  cases ns <;> rfl

theorem status_ne_failed_of_step {a ns : SettlementStatus}
    (hg : statusStep a ns = true) : a ≠ SettlementStatus.Failed := by
  intro hf
  subst hf
  rw [statusStep_failed] at hg
  exact Bool.false_ne_true hg

theorem settlement_invariants {st : SettlementStore} (h : SettlementReachable st) :
    proofsUnique st ∧ quoteUniqueNonFailed st := by
  induction h with
  | init => exact ⟨List.Pairwise.nil, List.Pairwise.nil⟩
  | settle st0 quoteId paymentProof user amount now dA dC h ih =>
    obtain ⟨ih1, ih2⟩ := ih
    cases hf : st0.settlements.find? (fun s => s.payment_proof == paymentProof) with
    | some s =>
      simp only [settleQuoteModel, hf]
      exact ⟨ih1, ih2⟩
    | none =>
      by_cases ha : st0.settlements.any
          (fun s => s.quote_id == quoteId && s.status != SettlementStatus.Failed) = true
      · simp only [settleQuoteModel, hf, ha, if_true]
        exact ⟨ih1, ih2⟩
      · simp only [settleQuoteModel, hf]
        rw [if_neg ha]
        constructor
        · unfold proofsUnique
          dsimp only
          rw [List.pairwise_append]
          refine ⟨ih1, by simp, ?_⟩
          intro a hma b hmb
          simp only [List.mem_singleton] at hmb
          subst hmb
          have := List.find?_eq_none.mp hf a hma
          simpa using this
        · unfold quoteUniqueNonFailed
          dsimp only
          rw [List.pairwise_append]
          refine ⟨ih2, by simp, ?_⟩
          intro a hma b hmb
          simp only [List.mem_singleton] at hmb
          subst hmb
          intro hqid
          dsimp only at hqid
          left
          by_contra hnf
          apply ha
          rw [List.any_eq_true]
          refine ⟨a, hma, ?_⟩
          simp [hqid, hnf]
  | advance st0 sid ns h ih =>
    obtain ⟨ih1, ih2⟩ := ih
    constructor
    · unfold proofsUnique advanceSettlement
      dsimp only
      refine List.Pairwise.map _ ?_ ih1
      intro a b hab
      dsimp only
      split <;> split <;> simpa using hab
    · unfold quoteUniqueNonFailed advanceSettlement
      dsimp only
      refine List.Pairwise.map _ ?_ ih2
      intro a b hab
      dsimp only
      split
      · rename_i hga
        rw [Bool.and_eq_true] at hga
        have ha2 : a.status ≠ SettlementStatus.Failed :=
          status_ne_failed_of_step hga.2
        split
        · rename_i hgb
          rw [Bool.and_eq_true] at hgb
          have hb2 : b.status ≠ SettlementStatus.Failed :=
            status_ne_failed_of_step hgb.2
          intro hq
          rcases hab hq with h1 | h1
          · exact absurd h1 ha2
          · exact absurd h1 hb2
        · intro hq
          rcases hab hq with h1 | h1
          · exact absurd h1 ha2
          · exact Or.inr h1
      · split
        · rename_i hgb
          rw [Bool.and_eq_true] at hgb
          have hb2 : b.status ≠ SettlementStatus.Failed :=
            status_ne_failed_of_step hgb.2
          intro hq
          rcases hab hq with h1 | h1
          · exact Or.inl h1
          · exact absurd h1 hb2
        · exact hab

theorem retryRun_failed_le (outcomes : List (Bool × String)) (st : StoreState) :
    (retryRun st outcomes).2.2 ≤ 3 - st.retryCount := by
  induction outcomes generalizing st with
  | nil => simp [retryRun]
  | cons o rest ih =>
    obtain ⟨ob, oe⟩ := o
    simp only [retryRun]
    by_cases hlt : st.retryCount < 3
    · cases ob with
      | true =>
        have hrest := ih (retryConnectionModel st true oe).1
        have hcount : (retryConnectionModel st true oe).1.retryCount = st.retryCount := by
          simp [retryConnectionModel, initCanisterModel, hlt]
        rw [hcount] at hrest
        simpa using hrest
      | false =>
        have hr2 : (retryConnectionModel st false oe).2 = true := by
          simp [retryConnectionModel, hlt]
        have hcount : (retryConnectionModel st false oe).1.retryCount
            = st.retryCount + 1 := by
          simp [retryConnectionModel, initCanisterModel, hlt]
        have hrest := ih (retryConnectionModel st false oe).1
        rw [hcount] at hrest
        simp [hr2]
        omega
    · have hr2 : (retryConnectionModel st ob oe).2 = false := by
        simp [retryConnectionModel, hlt]
      have hcount : (retryConnectionModel st ob oe).1.retryCount = st.retryCount := by
        simp [retryConnectionModel, hlt]
      have hrest := ih (retryConnectionModel st ob oe).1
      rw [hcount] at hrest
      simp only [hr2, Bool.false_and]
      simpa using hrest

/-! ## Claim theorems -/

/-- C1 (no overspend): in every reachable reserve state the locked
funds never exceed the balance, the available figure equals balance
minus locked as integers and is therefore non-negative, and a further
application of any reserve mutation preserves the bound. -/
theorem reserve_no_overspend (r : ReserveState) (h : ReserveReachable r) :
    r.locked ≤ r.balance
    ∧ (availableReserve r : Int) = (r.balance : Int) - (r.locked : Int)
    ∧ 0 ≤ (r.balance : Int) - (r.locked : Int)
    ∧ ∀ op : ReserveOp, (reserveStep r op).locked ≤ (reserveStep r op).balance := by
  have hb := reserve_locked_le_balance h
  refine ⟨hb, ?_, ?_, ?_⟩
  · unfold availableReserve
    omega
  · omega
  · intro op
    exact reserve_locked_le_balance (ReserveReachable.step r op h)

/-- Witness for C1 at the reachable state obtained by topping up 100,
raising the daily limit to 50 and locking 30. -/
theorem reserve_no_overspend_witness :
    (reserveStep (reserveStep (reserveStep initReserve (ReserveOp.topup 100))
        (ReserveOp.setDailyLimit 50)) (ReserveOp.lock 30)).locked
      ≤ (reserveStep (reserveStep (reserveStep initReserve (ReserveOp.topup 100))
        (ReserveOp.setDailyLimit 50)) (ReserveOp.lock 30)).balance :=
  (reserve_no_overspend _
    (ReserveReachable.step _ (ReserveOp.lock 30)
      (ReserveReachable.step _ (ReserveOp.setDailyLimit 50)
        (ReserveReachable.step _ (ReserveOp.topup 100) ReserveReachable.init)))).1

/-- C2 (settlement idempotency): in every reachable settlement store no
two stored settlements share a payment proof, so a payment proof yields
at most one Completed settlement; and settling with the payment proof
of a stored settlement returns exactly that settlement, with the store
unchanged, so repeated calls with the same proof return the same id. -/
theorem settlement_idempotency (st : SettlementStore) (h : SettlementReachable st) :
    (∀ s1 s2 : Settlement, s1 ∈ st.settlements → s2 ∈ st.settlements →
        s1.payment_proof = s2.payment_proof → s1 = s2)
    ∧ (∀ (s : Settlement) (quoteId user : String) (amount now : Nat)
        (dA dC : String), s ∈ st.settlements →
        settleQuoteModel st quoteId s.payment_proof user amount now dA dC
          = (st, Except.ok s)) := by
  obtain ⟨h1, h2⟩ := settlement_invariants h
  have huniq : ∀ s1 s2 : Settlement, s1 ∈ st.settlements → s2 ∈ st.settlements →
      s1.payment_proof = s2.payment_proof → s1 = s2 := by
    intro s1 s2 hm1 hm2 hpp
    by_cases heq : s1 = s2
    · exact heq
    · unfold proofsUnique at h1
      exact absurd hpp (List.Pairwise.forall (fun a b hne => Ne.symm hne) h1 hm1 hm2 heq)
  refine ⟨huniq, ?_⟩
  intro s quoteId user amount now dA dC hmem
  have hfind : st.settlements.find? (fun x => x.payment_proof == s.payment_proof)
      = some s := by
    cases hf : st.settlements.find? (fun x => x.payment_proof == s.payment_proof) with
    | none =>
      exfalso
      have := List.find?_eq_none.mp hf s hmem
      simp at this
    | some x =>
      have hpx := List.find?_some hf
      have hxm := List.mem_of_find?_eq_some hf
      have hxe : x = s := huniq x s hxm hmem (by simpa using hpx)
      rw [hxe]
  unfold settleQuoteModel
  rw [hfind]

/-- Witness for C2: after one settlement with proof p1, settling again
with p1 returns the stored settlement and leaves the store unchanged. -/
theorem settlement_idempotency_witness :
    settleQuoteModel (settleQuoteModel initSettlementStore "q1" "p1" "u1" 5 0 "a" "c").1
        "q1" "p1" "u2" 7 1 "b" "c"
      = ((settleQuoteModel initSettlementStore "q1" "p1" "u1" 5 0 "a" "c").1,
          Except.ok
            { id := "settlement-0", quote_id := "q1", user_principal := "u1"
            , amount := 5, destination_address := "a", destination_chain := "c"
            , payment_proof := "p1", created_at := 0
            , status := SettlementStatus.Pending, gas_used := none
            , transaction_hash := none, retry_count := 0, last_error := none }) :=
  (settlement_idempotency _
      (SettlementReachable.settle initSettlementStore "q1" "p1" "u1" 5 0 "a" "c"
        SettlementReachable.init)).2
    { id := "settlement-0", quote_id := "q1", user_principal := "u1"
    , amount := 5, destination_address := "a", destination_chain := "c"
    , payment_proof := "p1", created_at := 0
    , status := SettlementStatus.Pending, gas_used := none
    , transaction_hash := none, retry_count := 0, last_error := none }
    "q1" "u2" 7 1 "b" "c" (by decide)

/-- C3 amended (quote status domain): the canister interface declares a
Quote status ranging over exactly Active, Expired and Settled; Failed
is not a status of a Quote in the declared candid interface, although
the local type in the frontend store additionally lists it. -/
theorem quote_status_domain :
    (∀ s : QuoteStatus,
        s = QuoteStatus.Active ∨ s = QuoteStatus.Expired ∨ s = QuoteStatus.Settled)
    ∧ variantLabels candidServiceEnv "QuoteStatus" = ["Active", "Expired", "Settled"]
    ∧ ¬ ("Failed" ∈ variantLabels candidServiceEnv "QuoteStatus")
    ∧ "Failed" ∈ variantLabels storeIdlEnv "QuoteStatus" := by
  refine ⟨?_, by decide, by decide, by decide⟩
  intro s
  cases s
  · exact Or.inl rfl
  · exact Or.inr (Or.inl rfl)
  · exact Or.inr (Or.inr rfl)

/-- Counterexample for C3 as stated: the candid QuoteStatus of the
declared service has no Failed alternative, so Failed is not a possible
status of a Quote, while the frontend store lists it locally. -/
theorem quote_status_domain_counterexample :
    ¬ ("Failed" ∈ variantLabels candidServiceEnv "QuoteStatus")
    ∧ ("Failed" ∈ variantLabels storeIdlEnv "QuoteStatus")
    ∧ (variantLabels candidServiceEnv "QuoteStatus").length = 3 := by
  decide

/-- C4 (at most one settlement per quote): in every reachable
settlement store two non-Failed settlements of the same quote coincide;
a settlement attempt with a fresh payment proof for a quote that
already has a non-Failed settlement is rejected as AlreadySettled; and
get_settlement_by_quote returns at most one record, a settlement of the
queried quote. -/
theorem one_settlement_per_quote (st : SettlementStore) (h : SettlementReachable st) :
    (∀ s1 s2 : Settlement, s1 ∈ st.settlements → s2 ∈ st.settlements →
        s1.quote_id = s2.quote_id → s1.status ≠ SettlementStatus.Failed →
        s2.status ≠ SettlementStatus.Failed → s1 = s2)
    ∧ (∀ (quoteId paymentProof user : String) (amount now : Nat) (dA dC : String),
        (∀ s ∈ st.settlements, s.payment_proof ≠ paymentProof) →
        (∃ s ∈ st.settlements, s.quote_id = quoteId ∧ s.status ≠ SettlementStatus.Failed) →
        (settleQuoteModel st quoteId paymentProof user amount now dA dC).2
          = Except.error QuoteError.AlreadySettled)
    ∧ (∀ (quoteId : String) (s : Settlement),
        getSettlementByQuote st quoteId = some s →
        s ∈ st.settlements ∧ s.quote_id = quoteId) := by
  obtain ⟨h1, h2⟩ := settlement_invariants h
  refine ⟨?_, ?_, ?_⟩
  · intro s1 s2 hm1 hm2 hq hf1 hf2
    by_cases heq : s1 = s2
    · exact heq
    · unfold quoteUniqueNonFailed at h2
      have hsym : Symmetric (fun a b : Settlement => a.quote_id = b.quote_id →
          a.status = SettlementStatus.Failed ∨ b.status = SettlementStatus.Failed) := by
        intro a b hr hq2
        exact Or.symm (hr hq2.symm)
      rcases List.Pairwise.forall hsym h2 hm1 hm2 heq hq with hx | hx
      · exact absurd hx hf1
      · exact absurd hx hf2
  · intro quoteId paymentProof user amount now dA dC hnp hex
    have hfind : st.settlements.find? (fun x => x.payment_proof == paymentProof)
        = none := by
      rw [List.find?_eq_none]
      intro x hx
      simpa using hnp x hx
    have hany : st.settlements.any
        (fun x => x.quote_id == quoteId && x.status != SettlementStatus.Failed)
        = true := by
      rw [List.any_eq_true]
      obtain ⟨s, hsm, hq, hs⟩ := hex
      exact ⟨s, hsm, by simp [hq, hs]⟩
    unfold settleQuoteModel
    rw [hfind, hany]
    simp
  · intro quoteId s hg
    unfold getSettlementByQuote at hg
    have h1m := List.mem_of_find?_eq_some hg
    have h2m := List.find?_some hg
    exact ⟨h1m, by simpa using h2m⟩

/-- Witness for C4: after a settlement for quote q1 with proof p1, a
second attempt for q1 with fresh proof p2 returns AlreadySettled. -/
theorem one_settlement_per_quote_witness :
    (settleQuoteModel (settleQuoteModel initSettlementStore "q1" "p1" "u1" 5 0 "a" "c").1
        "q1" "p2" "u3" 9 2 "d" "c").2 = Except.error QuoteError.AlreadySettled :=
  ((one_settlement_per_quote _
      (SettlementReachable.settle initSettlementStore "q1" "p1" "u1" 5 0 "a" "c"
        SettlementReachable.init)).2.1)
    "q1" "p2" "u3" 9 2 "d" "c" (by decide) (by decide)

/-- C5 amended (quote conservation): the total cost of a quote issued
by request_quote is charged in source-token units; priced in USD it
always covers the amount plus gas budget, that is
total_cost x icp_usd is at least (amount_out + gas_estimate x
max_fee_per_gas) x eth_usd; the unconverted inequality of the claim
holds only when the conversion factor is at least one. -/
theorem quote_conservation (cfg : BridgeConfig) (now : Nat) (user : String)
    (amountOut : Nat) (destAddr destChain : String) (ethUsd icpUsd : Nat)
    (gasEstimate baseFee priorityFee : Nat) (q : Quote)
    (h : requestQuote cfg now user amountOut destAddr destChain ethUsd icpUsd
          gasEstimate baseFee priorityFee = .ok q) :
    q.total_cost * icpUsd ≥ (q.amount_out + q.gas_estimate * q.max_fee_per_gas) * ethUsd := by
  obtain ⟨hq, hs⟩ := requestQuote_ok_eq h
  subst hq
  have hpos : 0 < icpUsd := Nat.pos_of_ne_zero hs
  have hb := totalCostSource_scaled amountOut
      (gasBudgetOf (2 * baseFee + priorityFee) gasEstimate) ethUsd icpUsd
      cfg.safety_margin_percent hpos
  simp only [buildQuote, gasBudgetOf] at hb ⊢
  rw [ge_iff_le, Nat.mul_comm gasEstimate (2 * baseFee + priorityFee)]
  exact hb

/-- Witness for C5 amended at the concrete quote of spec scenario A. -/
theorem quote_conservation_witness :
    (buildQuote defaultBridgeConfig 1000 "alice" 2000000000000000
        "0x742d35Cc6634C0532925a3b844Bc9e7595f3Ab00" "Base Sepolia" 3000 6 21000 30 1).total_cost * 6
      ≥ ((buildQuote defaultBridgeConfig 1000 "alice" 2000000000000000
        "0x742d35Cc6634C0532925a3b844Bc9e7595f3Ab00" "Base Sepolia" 3000 6 21000 30 1).amount_out
        + (buildQuote defaultBridgeConfig 1000 "alice" 2000000000000000
        "0x742d35Cc6634C0532925a3b844Bc9e7595f3Ab00" "Base Sepolia" 3000 6 21000 30 1).gas_estimate
          * (buildQuote defaultBridgeConfig 1000 "alice" 2000000000000000
        "0x742d35Cc6634C0532925a3b844Bc9e7595f3Ab00" "Base Sepolia" 3000 6 21000 30 1).max_fee_per_gas) * 3000 :=
  quote_conservation defaultBridgeConfig 1000 "alice" 2000000000000000
    "0x742d35Cc6634C0532925a3b844Bc9e7595f3Ab00" "Base Sepolia" 3000 6 21000 30 1
    (buildQuote defaultBridgeConfig 1000 "alice" 2000000000000000
      "0x742d35Cc6634C0532925a3b844Bc9e7595f3Ab00" "Base Sepolia" 3000 6 21000 30 1)
    (by decide)

/-- Counterexample for C5 as stated: when the source token unit is
worth more than the ETH unit the converted total cost is numerically
smaller than amount_out plus gas_estimate times max_fee_per_gas. -/
theorem quote_conservation_counterexample :
    ((requestQuote
        { max_quote_amount := 100000, min_quote_amount := 1
        , quote_validity_minutes := 15, max_gas_price := 1000
        , safety_margin_percent := 20, supported_chains := ["Base Sepolia"] }
        0 "alice" 20000 "0x742d35Cc6634C0532925a3b844Bc9e7595f3Ab00" "Base Sepolia"
        1 200 21000 0 1).toOption.map
      (fun q => (q.total_cost, q.amount_out, q.gas_estimate, q.max_fee_per_gas)))
      = some (246, 20000, 21000, 1)
    ∧ ¬ (246 ≥ 20000 + 21000 * 1) :=
  ⟨by decide, by decide⟩

/-- C6 (quote expiry window): every quote issued by request_quote
expires exactly the configured validity window after its creation time,
and the default window of 15 minutes is 900 seconds. -/
theorem quote_expiry_window (cfg : BridgeConfig) (now : Nat) (user : String)
    (amountOut : Nat) (destAddr destChain : String) (ethUsd icpUsd : Nat)
    (gasEstimate baseFee priorityFee : Nat) (q : Quote)
    (h : requestQuote cfg now user amountOut destAddr destChain ethUsd icpUsd
          gasEstimate baseFee priorityFee = .ok q) :
    q.expires_at = q.created_at + cfg.quote_validity_minutes * 60
    ∧ defaultBridgeConfig.quote_validity_minutes * 60 = 900 := by
  obtain ⟨hq, -⟩ := requestQuote_ok_eq h
  subst hq
  exact ⟨by simp [buildQuote], by decide⟩

/-- Witness for C6 at a successful concrete request with the default
configuration. -/
theorem quote_expiry_window_witness :
    (buildQuote defaultBridgeConfig 1000 "alice" 2000000000000000
        "0x742d35Cc6634C0532925a3b844Bc9e7595f3Ab00" "Base Sepolia" 3000 6 21000 30 1).expires_at
      = (buildQuote defaultBridgeConfig 1000 "alice" 2000000000000000
        "0x742d35Cc6634C0532925a3b844Bc9e7595f3Ab00" "Base Sepolia" 3000 6 21000 30 1).created_at
        + defaultBridgeConfig.quote_validity_minutes * 60
    ∧ defaultBridgeConfig.quote_validity_minutes * 60 = 900 :=
  quote_expiry_window defaultBridgeConfig 1000 "alice" 2000000000000000
    "0x742d35Cc6634C0532925a3b844Bc9e7595f3Ab00" "Base Sepolia" 3000 6 21000 30 1
    (buildQuote defaultBridgeConfig 1000 "alice" 2000000000000000
      "0x742d35Cc6634C0532925a3b844Bc9e7595f3Ab00" "Base Sepolia" 3000 6 21000 30 1)
    (by decide)

/-- C7 (API result shape): the declared candid service gives
request_quote the signature (nat64, text, text) to a two-alternative
variant of Ok Quote or Err text, and bridge_assets and settle_quote
return the Ok Settlement or Err text variant; at the type level every
value of such a result is exactly an Ok or an Err. -/
theorem api_result_shape :
    methodSigIs candidService candidServiceEnv "request_quote" [.nat64, .text, .text]
      (.variant [("Ok", .ref "Quote"), ("Err", .text)]) = true
    ∧ methodSigIs candidService candidServiceEnv "bridge_assets" [.nat64, .text, .text]
      (.variant [("Ok", .ref "Settlement"), ("Err", .text)]) = true
    ∧ methodSigIs candidService candidServiceEnv "settle_quote" [.text, .text]
      (.variant [("Ok", .ref "Settlement"), ("Err", .text)]) = true
    ∧ (∀ r : ApiResult Quote, (∃ q, r = ApiResult.ok q) ∨ (∃ e, r = ApiResult.err e))
    ∧ (∀ r : ApiResult Settlement,
        (∃ s, r = ApiResult.ok s) ∨ (∃ e, r = ApiResult.err e)) := by
  refine ⟨by decide, by decide, by decide, ?_, ?_⟩
  · intro r
    cases r with
    | ok v => exact Or.inl ⟨v, rfl⟩
    | err e => exact Or.inr ⟨e, rfl⟩
  · intro r
    cases r with
    | ok v => exact Or.inl ⟨v, rfl⟩
    | err e => exact Or.inr ⟨e, rfl⟩

/-- C8 amended (frontend and backend interface agreement): of the
frontend binding, bridge_assets, settle_quote,
get_detailed_reserve_status, create_icp_payment, get_sponsorship_status,
get_user_transactions and get_user_transaction exist in the candid
service with the same argument and result types; request_quote agrees
except that the frontend QuoteStatus adds a Failed alternative the
service lacks; get_quote_by_id and get_settlement_by_id are not methods
of the service; and get_rpc_cache_stats, clear_rpc_cache,
invalidate_gas_cache and run_comprehensive_test_suite return plain text
in the service rather than the Ok-or-Err variant the frontend
declares. -/
theorem frontend_interface_agreement :
    frontendMethodAgrees "bridge_assets" = true
    ∧ frontendMethodAgrees "settle_quote" = true
    ∧ frontendMethodAgrees "get_detailed_reserve_status" = true
    ∧ frontendMethodAgrees "create_icp_payment" = true
    ∧ frontendMethodAgrees "get_sponsorship_status" = true
    ∧ frontendMethodAgrees "get_user_transactions" = true
    ∧ frontendMethodAgrees "get_user_transaction" = true
    ∧ frontendMethodAgrees "request_quote" = false
    ∧ frontendMethodAgreesIn storeIdlEnvQuoteStatusPatched "request_quote" = true
    ∧ hasMethod candidService "get_quote_by_id" = false
    ∧ hasMethod candidService "get_settlement_by_id" = false
    ∧ frontendMethodAgrees "get_rpc_cache_stats" = false
    ∧ methodRetIsText candidService "get_rpc_cache_stats" = true
    ∧ frontendMethodAgrees "clear_rpc_cache" = false
    ∧ methodRetIsText candidService "clear_rpc_cache" = true
    ∧ frontendMethodAgrees "invalidate_gas_cache" = false
    ∧ methodRetIsText candidService "invalidate_gas_cache" = true
    ∧ frontendMethodAgrees "run_comprehensive_test_suite" = false
    ∧ methodRetIsText candidService "run_comprehensive_test_suite" = true := by
  decide

/-- Counterexample for C8 as stated: the frontend binding declares
get_quote_by_id, but the declared candid service has no such method. -/
theorem frontend_interface_counterexample :
    hasMethod storeIdlService "get_quote_by_id" = true
    ∧ hasMethod candidService "get_quote_by_id" = false :=
  ⟨by decide, by decide⟩

/-- C9 amended (store error atomicity): for each of the store actions
requestQuote, bridgeAssets, settleQuote and createIcpPayment, when the
actor call returns Err the action returns null, records exactly that
message in the error field and leaves every cached collection
unchanged; when the call throws, the action behaves the same except
that the recorded message is the thrown message behind a fixed context
prefix; when the call returns Ok the action returns the value and
appends it to its own collection, leaving the other collections
unchanged. -/
theorem store_error_atomicity (st : StoreState) (e m : String) (q : Quote)
    (s : Settlement) (t : UserTransaction) (h : st.hasActor = true) :
    (failsWith st (requestQuoteAction st (.err e)) e
      ∧ failsWith st (requestQuoteAction st (.thrown m))
          ("Failed to request quote: " ++ m)
      ∧ (requestQuoteAction st (.ok q)).2 = some q
      ∧ (requestQuoteAction st (.ok q)).1.quotes = st.quotes ++ [q]
      ∧ (requestQuoteAction st (.ok q)).1.settlements = st.settlements
      ∧ (requestQuoteAction st (.ok q)).1.userTransactions = st.userTransactions)
    ∧ (failsWith st (bridgeAssetsAction st (.err e)) e
      ∧ failsWith st (bridgeAssetsAction st (.thrown m))
          ("Failed to bridge assets: " ++ m)
      ∧ (bridgeAssetsAction st (.ok s)).2 = some s
      ∧ (bridgeAssetsAction st (.ok s)).1.settlements = st.settlements ++ [s]
      ∧ (bridgeAssetsAction st (.ok s)).1.quotes = st.quotes
      ∧ (bridgeAssetsAction st (.ok s)).1.userTransactions = st.userTransactions)
    ∧ (failsWith st (settleQuoteAction st (.err e)) e
      ∧ failsWith st (settleQuoteAction st (.thrown m))
          ("Failed to settle quote: " ++ m)
      ∧ (settleQuoteAction st (.ok s)).2 = some s
      ∧ (settleQuoteAction st (.ok s)).1.settlements = st.settlements ++ [s]
      ∧ (settleQuoteAction st (.ok s)).1.quotes = st.quotes
      ∧ (settleQuoteAction st (.ok s)).1.userTransactions = st.userTransactions)
    ∧ (failsWith st (createIcpPaymentAction st (.err e)) e
      ∧ failsWith st (createIcpPaymentAction st (.thrown m))
          ("Failed to create automatic ICP payment: " ++ m)
      ∧ (createIcpPaymentAction st (.ok t)).2 = some t
      ∧ (createIcpPaymentAction st (.ok t)).1.userTransactions
          = st.userTransactions ++ [t]
      ∧ (createIcpPaymentAction st (.ok t)).1.quotes = st.quotes
      ∧ (createIcpPaymentAction st (.ok t)).1.settlements = st.settlements) := by
  simp [requestQuoteAction, bridgeAssetsAction, settleQuoteAction,
    createIcpPaymentAction, failsWith, collectionsUnchanged, h]

/-- Witness for C9 amended: the requestQuote action on an Err outcome
at a concrete connected store records the message and changes no
collection. -/
theorem store_error_atomicity_witness :
    failsWith { initialStoreState with hasActor := true }
      (requestQuoteAction { initialStoreState with hasActor := true }
        (CallResult.err "boom")) "boom" :=
  (store_error_atomicity { initialStoreState with hasActor := true } "boom" "m"
    (buildQuote defaultBridgeConfig 0 "u" 1 "a" "c" 1 1 1 1 1)
    { id := "s", quote_id := "q", user_principal := "u", amount := 1
    , destination_address := "a", destination_chain := "c", payment_proof := "p"
    , created_at := 0, status := SettlementStatus.Pending, gas_used := none
    , transaction_hash := none, retry_count := 0, last_error := none }
    { id := "t", user_principal := "u", amount_icp := 1, amount_eth := 1
    , destination_address := "a", destination_chain := "c"
    , status := TransactionStatus.Pending, created_at := 0, completed_at := none
    , transaction_hash := none, gas_sponsored := 0, icp_payment_id := "i" }
    rfl).1.1

/-- Counterexample for C9 as stated: a thrown exception message is
recorded behind a context prefix, not verbatim. -/
theorem store_error_atomicity_counterexample :
    (requestQuoteAction { initialStoreState with hasActor := true }
        (CallResult.thrown "boom")).1.error
      = some "Failed to request quote: boom"
    ∧ (requestQuoteAction { initialStoreState with hasActor := true }
        (CallResult.thrown "boom")).1.error ≠ some "boom" :=
  ⟨by decide, by decide⟩

/-- C10 amended (bounded connection retries): over any sequence of
retryConnection calls the number of failed connection attempts never
exceeds three minus the starting retryCount, hence three from a fresh
store; once retryCount has reached three, a retryConnection call makes
no connection attempt and only records the maximum-retry error message.
Successful attempts do not increment retryCount and are not bounded. -/
theorem bounded_retry_attempts (st : StoreState) (outcomes : List (Bool × String)) :
    (retryRun st outcomes).2.2 ≤ 3 - st.retryCount
    ∧ (3 ≤ st.retryCount → ∀ (success : Bool) (errMsg : String),
        retryConnectionModel st success errMsg
          = ({ st with error := some maxRetryMsg, isLoading := false }, false)) := by
  refine ⟨retryRun_failed_le outcomes st, ?_⟩
  intro h3 success errMsg
  unfold retryConnectionModel
  rw [if_neg (by omega)]

/-- Witness for C10 amended: four failing retries from a fresh store
make at most three failed attempts, and a store at the retry limit
yields only the maximum-retry message. -/
theorem bounded_retry_attempts_witness :
    (retryRun initialStoreState
        [(false, "e1"), (false, "e2"), (false, "e3"), (false, "e4")]).2.2
      ≤ 3 - initialStoreState.retryCount
    ∧ retryConnectionModel { initialStoreState with retryCount := 3 } false "x"
        = ({ { initialStoreState with retryCount := 3 } with
              error := some maxRetryMsg, isLoading := false }, false) :=
  ⟨(bounded_retry_attempts initialStoreState
      [(false, "e1"), (false, "e2"), (false, "e3"), (false, "e4")]).1,
   (bounded_retry_attempts { initialStoreState with retryCount := 3 } []).2
      (by decide) false "x"⟩

/-- Counterexample for C10 as stated: four retryConnection calls whose
connection attempts all succeed perform four connection attempts, so
retry-initiated attempts are not bounded by three; only failed attempts
are. -/
theorem bounded_retry_attempts_counterexample :
    (retryRun initialStoreState
        [(true, ""), (true, ""), (true, ""), (true, "")]).2.1 = 4
    ∧ ¬ (4 ≤ 3) :=
  ⟨by decide, by decide⟩
